import Mathlib

set_option maxRecDepth 40000

/-!
Verification of the SEO scoring engine of `script.js` (`analyzeSEO` and its
data model). The JavaScript is embedded shallowly: the mutable accumulators
of `analyzeSEO` become an explicit `AnalysisState` threaded through one step
function per rule, in the source's order.
-/

/-- Minimal JSON value type: `structuredData` holds parsed JSON-LD blocks
(`JSON.parse` results); the engine only ever inspects the list length. -/
inductive Json where
  | null : Json
  | bool (b : Bool) : Json
  | num (n : Int) : Json
  | str (s : String) : Json
  | arr (elems : List Json) : Json
  | obj (fields : List (String × Json)) : Json

/-- The flat record produced by `parseMetaTags` (all fields default to the
empty string when the tag is absent; `structuredData` collects the parsed
`application/ld+json` blocks). -/
structure TagRecord where
  title : String
  description : String
  keywords : String
  canonical : String
  robots : String
  viewport : String
  charset : String
  ogTitle : String
  ogDescription : String
  ogImage : String
  ogUrl : String
  ogType : String
  ogSiteName : String
  twitterCard : String
  twitterTitle : String
  twitterDescription : String
  twitterImage : String
  twitterSite : String
  author : String
  language : String
  structuredData : List Json

/-- The `type` field of an analysis item: 'passed', 'warning' or 'error'. -/
inductive FindingKind where
  | passed
  | warning
  | error
  deriving DecidableEq, Repr

/-- One analysis item pushed by `analyzeSEO`: `{ type, title, description }`. -/
structure Finding where
  kind : FindingKind
  title : String
  description : String
  deriving DecidableEq, Repr

/-- One entry of the `categoryScores` object: `{ score, maxScore, items }`. -/
structure Category where
  score : Nat
  maxScore : Nat
  items : List Finding
  deriving DecidableEq, Repr

/-- The four fixed categories of `categoryScores`. -/
structure CategoryScores where
  basicSeo : Category
  socialMedia : Category
  technicalSeo : Category
  contentQuality : Category
  deriving DecidableEq, Repr

/-- The object returned by `analyzeSEO`. -/
structure Report where
  score : Nat
  passed : Nat
  warnings : Nat
  errors : Nat
  items : List Finding
  categoryScores : CategoryScores
  deriving DecidableEq, Repr

/-- The mutable accumulators of `analyzeSEO` (`analysis`, `score`, `passed`,
`warnings`, `errors`, `categoryScores`) as one explicit state. -/
structure AnalysisState where
  analysis : List Finding
  score : Nat
  passed : Nat
  warnings : Nat
  errors : Nat
  categoryScores : CategoryScores
  deriving DecidableEq, Repr

/-- Initial `categoryScores` object of `analyzeSEO`. -/
def initCategoryScores : CategoryScores :=
  { basicSeo := { score := 0, maxScore := 30, items := [] },
    socialMedia := { score := 0, maxScore := 25, items := [] },
    technicalSeo := { score := 0, maxScore := 30, items := [] },
    contentQuality := { score := 0, maxScore := 15, items := [] } }

/-- Initial accumulator values of `analyzeSEO`. -/
def initState : AnalysisState :=
  { analysis := [], score := 0, passed := 0, warnings := 0, errors := 0,
    categoryScores := initCategoryScores }

/-- Rule 1, title analysis (Basic SEO). A truthy `title` with length outside
both tested ranges pushes nothing, exactly as in the source (the branch is
unreachable since a non-empty string has positive length). -/
def titleStep (metaTags : TagRecord) (s : AnalysisState) : AnalysisState :=
  if metaTags.title ≠ "" then
    if 30 ≤ metaTags.title.length ∧ metaTags.title.length ≤ 60 then
      let item : Finding :=
        { kind := .passed, title := "Title Tag Length",
          description := "Perfect! Title is " ++ toString metaTags.title.length ++
            " characters (30-60 recommended)." }
      { s with
        analysis := s.analysis ++ [item],
        categoryScores := { s.categoryScores with basicSeo :=
          { s.categoryScores.basicSeo with
            items := s.categoryScores.basicSeo.items ++ [item],
            score := s.categoryScores.basicSeo.score + 15 } },
        score := s.score + 15,
        passed := s.passed + 1 }
    else if 0 < metaTags.title.length then
      let item : Finding :=
        { kind := .warning, title := "Title Tag Length",
          description := "Title is " ++ toString metaTags.title.length ++
            " characters. Recommended: 30-60 characters." }
      { s with
        analysis := s.analysis ++ [item],
        categoryScores := { s.categoryScores with basicSeo :=
          { s.categoryScores.basicSeo with
            items := s.categoryScores.basicSeo.items ++ [item],
            score := s.categoryScores.basicSeo.score + 8 } },
        score := s.score + 8,
        warnings := s.warnings + 1 }
    else
      s
  else
    let item : Finding :=
      { kind := .error, title := "Missing Title Tag",
        description := "Title tag is missing. This is crucial for SEO." }
    { s with
      analysis := s.analysis ++ [item],
      categoryScores := { s.categoryScores with basicSeo :=
        { s.categoryScores.basicSeo with
          items := s.categoryScores.basicSeo.items ++ [item] } },
      errors := s.errors + 1 }

/-- Rule 2, meta description analysis (Basic SEO). -/
def descriptionStep (metaTags : TagRecord) (s : AnalysisState) : AnalysisState :=
  if metaTags.description ≠ "" then
    if 120 ≤ metaTags.description.length ∧ metaTags.description.length ≤ 160 then
      let item : Finding :=
        { kind := .passed, title := "Meta Description Length",
          description := "Perfect! Description is " ++ toString metaTags.description.length ++
            " characters (120-160 recommended)." }
      { s with
        analysis := s.analysis ++ [item],
        categoryScores := { s.categoryScores with basicSeo :=
          { s.categoryScores.basicSeo with
            items := s.categoryScores.basicSeo.items ++ [item],
            score := s.categoryScores.basicSeo.score + 15 } },
        score := s.score + 15,
        passed := s.passed + 1 }
    else if 0 < metaTags.description.length then
      let item : Finding :=
        { kind := .warning, title := "Meta Description Length",
          description := "Description is " ++ toString metaTags.description.length ++
            " characters. Recommended: 120-160 characters." }
      { s with
        analysis := s.analysis ++ [item],
        categoryScores := { s.categoryScores with basicSeo :=
          { s.categoryScores.basicSeo with
            items := s.categoryScores.basicSeo.items ++ [item],
            score := s.categoryScores.basicSeo.score + 8 } },
        score := s.score + 8,
        warnings := s.warnings + 1 }
    else
      s
  else
    let item : Finding :=
      { kind := .error, title := "Missing Meta Description",
        description := "Meta description is missing. This affects click-through rates." }
    { s with
      analysis := s.analysis ++ [item],
      categoryScores := { s.categoryScores with basicSeo :=
        { s.categoryScores.basicSeo with
          items := s.categoryScores.basicSeo.items ++ [item] } },
      errors := s.errors + 1 }

/-- Rule 3, Open Graph analysis (Social Media): category +15 but direct score +10. -/
def openGraphStep (metaTags : TagRecord) (s : AnalysisState) : AnalysisState :=
  if metaTags.ogTitle ≠ "" ∧ metaTags.ogDescription ≠ "" then
    let item : Finding :=
      { kind := .passed, title := "Open Graph Tags",
        description := "Open Graph title and description are present for social media sharing." }
    { s with
      analysis := s.analysis ++ [item],
      categoryScores := { s.categoryScores with socialMedia :=
        { s.categoryScores.socialMedia with
          items := s.categoryScores.socialMedia.items ++ [item],
          score := s.categoryScores.socialMedia.score + 15 } },
      score := s.score + 10,
      passed := s.passed + 1 }
  else
    let item : Finding :=
      { kind := .warning, title := "Open Graph Tags",
        description := "Missing Open Graph tags. These improve social media sharing appearance." }
    { s with
      analysis := s.analysis ++ [item],
      categoryScores := { s.categoryScores with socialMedia :=
        { s.categoryScores.socialMedia with
          items := s.categoryScores.socialMedia.items ++ [item] } },
      warnings := s.warnings + 1 }

/-- Rule 4, Twitter Card analysis (Social Media): category +10 but direct score +5. -/
def twitterCardStep (metaTags : TagRecord) (s : AnalysisState) : AnalysisState :=
  if metaTags.twitterCard ≠ "" then
    let item : Finding :=
      { kind := .passed, title := "Twitter Card",
        description := "Twitter Card meta tag is present." }
    { s with
      analysis := s.analysis ++ [item],
      categoryScores := { s.categoryScores with socialMedia :=
        { s.categoryScores.socialMedia with
          items := s.categoryScores.socialMedia.items ++ [item],
          score := s.categoryScores.socialMedia.score + 10 } },
      score := s.score + 5,
      passed := s.passed + 1 }
  else
    let item : Finding :=
      { kind := .warning, title := "Twitter Card",
        description := "Twitter Card meta tag is missing." }
    { s with
      analysis := s.analysis ++ [item],
      categoryScores := { s.categoryScores with socialMedia :=
        { s.categoryScores.socialMedia with
          items := s.categoryScores.socialMedia.items ++ [item] } },
      warnings := s.warnings + 1 }

/-- Rule 5, canonical URL analysis (Technical SEO). -/
def canonicalStep (metaTags : TagRecord) (s : AnalysisState) : AnalysisState :=
  if metaTags.canonical ≠ "" then
    let item : Finding :=
      { kind := .passed, title := "Canonical URL",
        description := "Canonical URL is specified, helping prevent duplicate content issues." }
    { s with
      analysis := s.analysis ++ [item],
      categoryScores := { s.categoryScores with technicalSeo :=
        { s.categoryScores.technicalSeo with
          items := s.categoryScores.technicalSeo.items ++ [item],
          score := s.categoryScores.technicalSeo.score + 10 } },
      score := s.score + 10,
      passed := s.passed + 1 }
  else
    let item : Finding :=
      { kind := .warning, title := "Canonical URL",
        description := "Canonical URL is missing. Consider adding it to prevent duplicate content issues." }
    { s with
      analysis := s.analysis ++ [item],
      categoryScores := { s.categoryScores with technicalSeo :=
        { s.categoryScores.technicalSeo with
          items := s.categoryScores.technicalSeo.items ++ [item] } },
      warnings := s.warnings + 1 }

/-- Rule 6, viewport analysis (Technical SEO): category +10 but direct score +5. -/
def viewportStep (metaTags : TagRecord) (s : AnalysisState) : AnalysisState :=
  if metaTags.viewport ≠ "" then
    let item : Finding :=
      { kind := .passed, title := "Mobile Viewport",
        description := "Viewport meta tag is present for mobile optimization." }
    { s with
      analysis := s.analysis ++ [item],
      categoryScores := { s.categoryScores with technicalSeo :=
        { s.categoryScores.technicalSeo with
          items := s.categoryScores.technicalSeo.items ++ [item],
          score := s.categoryScores.technicalSeo.score + 10 } },
      score := s.score + 5,
      passed := s.passed + 1 }
  else
    let item : Finding :=
      { kind := .error, title := "Missing Viewport Tag",
        description := "Viewport meta tag is missing. This affects mobile usability." }
    { s with
      analysis := s.analysis ++ [item],
      categoryScores := { s.categoryScores with technicalSeo :=
        { s.categoryScores.technicalSeo with
          items := s.categoryScores.technicalSeo.items ++ [item] } },
      errors := s.errors + 1 }

/-- Rule 7, language attribute analysis (Content Quality). -/
def languageStep (metaTags : TagRecord) (s : AnalysisState) : AnalysisState :=
  if metaTags.language ≠ "" then
    let item : Finding :=
      { kind := .passed, title := "Language Declaration",
        description := "Language is declared as \"" ++ metaTags.language ++ "\"." }
    { s with
      analysis := s.analysis ++ [item],
      categoryScores := { s.categoryScores with contentQuality :=
        { s.categoryScores.contentQuality with
          items := s.categoryScores.contentQuality.items ++ [item],
          score := s.categoryScores.contentQuality.score + 5 } },
      score := s.score + 5,
      passed := s.passed + 1 }
  else
    let item : Finding :=
      { kind := .warning, title := "Language Declaration",
        description := "HTML lang attribute is missing. This helps search engines understand content language." }
    { s with
      analysis := s.analysis ++ [item],
      categoryScores := { s.categoryScores with contentQuality :=
        { s.categoryScores.contentQuality with
          items := s.categoryScores.contentQuality.items ++ [item] } },
      warnings := s.warnings + 1 }

/-- Rule 8, structured data analysis (Technical SEO). -/
def structuredDataStep (metaTags : TagRecord) (s : AnalysisState) : AnalysisState :=
  if 0 < metaTags.structuredData.length then
    let item : Finding :=
      { kind := .passed, title := "Structured Data",
        description := "Found " ++ toString metaTags.structuredData.length ++
          " structured data block(s). Great for rich snippets!" }
    { s with
      analysis := s.analysis ++ [item],
      categoryScores := { s.categoryScores with technicalSeo :=
        { s.categoryScores.technicalSeo with
          items := s.categoryScores.technicalSeo.items ++ [item],
          score := s.categoryScores.technicalSeo.score + 10 } },
      score := s.score + 10,
      passed := s.passed + 1 }
  else
    let item : Finding :=
      { kind := .warning, title := "Structured Data",
        description := "No structured data found. Consider adding Schema.org markup for rich snippets." }
    { s with
      analysis := s.analysis ++ [item],
      categoryScores := { s.categoryScores with technicalSeo :=
        { s.categoryScores.technicalSeo with
          items := s.categoryScores.technicalSeo.items ++ [item] } },
      warnings := s.warnings + 1 }

set_option linter.unusedVariables false in
/-- The scoring engine `analyzeSEO(metaTags, url)`: the eight rules run in
the source's fixed order, then the overall score is clamped at 100 via
`Math.min(100, score)`. The `url` parameter is received but never read. -/
def analyzeSEO (metaTags : TagRecord) (url : String) : Report :=
  let s1 := titleStep metaTags initState
  let s2 := descriptionStep metaTags s1
  let s3 := openGraphStep metaTags s2
  let s4 := twitterCardStep metaTags s3
  let s5 := canonicalStep metaTags s4
  let s6 := viewportStep metaTags s5
  let s7 := languageStep metaTags s6
  let s8 := structuredDataStep metaTags s7
  { score := min 100 s8.score,
    passed := s8.passed,
    warnings := s8.warnings,
    errors := s8.errors,
    items := s8.analysis,
    categoryScores := s8.categoryScores }

/-- TagRecord with every field empty and no structured data. -/
def emptyTags : TagRecord :=
  { title := "", description := "", keywords := "", canonical := "", robots := "",
    viewport := "", charset := "", ogTitle := "", ogDescription := "", ogImage := "",
    ogUrl := "", ogType := "", ogSiteName := "", twitterCard := "", twitterTitle := "",
    twitterDescription := "", twitterImage := "", twitterSite := "", author := "",
    language := "", structuredData := [] }

/-- TagRecord with every field empty except `viewport`, which holds "w". -/
def viewportOnlyTags : TagRecord :=
  { emptyTags with viewport := "w" }

/-- The finding rule 1 pushes: merges the two reachable title branches of the
source (the unreachable non-empty-but-zero-length branch is folded into the
warning case; `titleStep_analysis` discharges the impossibility). -/
def titleItem (t : TagRecord) : Finding :=
  if t.title ≠ "" then
    if 30 ≤ t.title.length ∧ t.title.length ≤ 60 then
      { kind := .passed, title := "Title Tag Length",
        description := "Perfect! Title is " ++ toString t.title.length ++
          " characters (30-60 recommended)." }
    else
      { kind := .warning, title := "Title Tag Length",
        description := "Title is " ++ toString t.title.length ++
          " characters. Recommended: 30-60 characters." }
  else
    { kind := .error, title := "Missing Title Tag",
      description := "Title tag is missing. This is crucial for SEO." }

/-- The finding rule 2 pushes. -/
def descriptionItem (t : TagRecord) : Finding :=
  if t.description ≠ "" then
    if 120 ≤ t.description.length ∧ t.description.length ≤ 160 then
      { kind := .passed, title := "Meta Description Length",
        description := "Perfect! Description is " ++ toString t.description.length ++
          " characters (120-160 recommended)." }
    else
      { kind := .warning, title := "Meta Description Length",
        description := "Description is " ++ toString t.description.length ++
          " characters. Recommended: 120-160 characters." }
  else
    { kind := .error, title := "Missing Meta Description",
      description := "Meta description is missing. This affects click-through rates." }

/-- The finding rule 3 pushes. -/
def openGraphItem (t : TagRecord) : Finding :=
  if t.ogTitle ≠ "" ∧ t.ogDescription ≠ "" then
    { kind := .passed, title := "Open Graph Tags",
      description := "Open Graph title and description are present for social media sharing." }
  else
    { kind := .warning, title := "Open Graph Tags",
      description := "Missing Open Graph tags. These improve social media sharing appearance." }

/-- The finding rule 4 pushes. -/
def twitterCardItem (t : TagRecord) : Finding :=
  if t.twitterCard ≠ "" then
    { kind := .passed, title := "Twitter Card",
      description := "Twitter Card meta tag is present." }
  else
    { kind := .warning, title := "Twitter Card",
      description := "Twitter Card meta tag is missing." }

/-- The finding rule 5 pushes. -/
def canonicalItem (t : TagRecord) : Finding :=
  if t.canonical ≠ "" then
    { kind := .passed, title := "Canonical URL",
      description := "Canonical URL is specified, helping prevent duplicate content issues." }
  else
    { kind := .warning, title := "Canonical URL",
      description := "Canonical URL is missing. Consider adding it to prevent duplicate content issues." }

/-- The finding rule 6 pushes. -/
def viewportItem (t : TagRecord) : Finding :=
  if t.viewport ≠ "" then
    { kind := .passed, title := "Mobile Viewport",
      description := "Viewport meta tag is present for mobile optimization." }
  else
    { kind := .error, title := "Missing Viewport Tag",
      description := "Viewport meta tag is missing. This affects mobile usability." }

/-- The finding rule 7 pushes. -/
def languageItem (t : TagRecord) : Finding :=
  if t.language ≠ "" then
    { kind := .passed, title := "Language Declaration",
      description := "Language is declared as \"" ++ t.language ++ "\"." }
  else
    { kind := .warning, title := "Language Declaration",
      description := "HTML lang attribute is missing. This helps search engines understand content language." }

/-- The finding rule 8 pushes. -/
def structuredDataItem (t : TagRecord) : Finding :=
  if 0 < t.structuredData.length then
    { kind := .passed, title := "Structured Data",
      description := "Found " ++ toString t.structuredData.length ++
        " structured data block(s). Great for rich snippets!" }
  else
    { kind := .warning, title := "Structured Data",
      description := "No structured data found. Consider adding Schema.org markup for rich snippets." }

/-- Amount rule 1 adds to the running `score` accumulator (the direct score),
with the source's unreachable branch kept as the final 0. -/
def titleDirect (t : TagRecord) : Nat :=
  if t.title ≠ "" then
    if 30 ≤ t.title.length ∧ t.title.length ≤ 60 then 15
    else if 0 < t.title.length then 8
    else 0
  else 0

/-- Amount rule 1 adds to `categoryScores.basicSeo.score`. -/
def titleCat (t : TagRecord) : Nat :=
  if t.title ≠ "" then
    if 30 ≤ t.title.length ∧ t.title.length ≤ 60 then 15
    else if 0 < t.title.length then 8
    else 0
  else 0

/-- Amount rule 2 adds to the running `score` accumulator. -/
def descriptionDirect (t : TagRecord) : Nat :=
  if t.description ≠ "" then
    if 120 ≤ t.description.length ∧ t.description.length ≤ 160 then 15
    else if 0 < t.description.length then 8
    else 0
  else 0

/-- Amount rule 2 adds to `categoryScores.basicSeo.score`. -/
def descriptionCat (t : TagRecord) : Nat :=
  if t.description ≠ "" then
    if 120 ≤ t.description.length ∧ t.description.length ≤ 160 then 15
    else if 0 < t.description.length then 8
    else 0
  else 0

/-- Amount rule 3 adds to the running `score` accumulator (10 when passed). -/
def openGraphDirect (t : TagRecord) : Nat :=
  if t.ogTitle ≠ "" ∧ t.ogDescription ≠ "" then 10 else 0

/-- Amount rule 3 adds to `categoryScores.socialMedia.score` (15 when passed). -/
def openGraphCat (t : TagRecord) : Nat :=
  if t.ogTitle ≠ "" ∧ t.ogDescription ≠ "" then 15 else 0

/-- Amount rule 4 adds to the running `score` accumulator (5 when passed). -/
def twitterCardDirect (t : TagRecord) : Nat :=
  if t.twitterCard ≠ "" then 5 else 0

/-- Amount rule 4 adds to `categoryScores.socialMedia.score` (10 when passed). -/
def twitterCardCat (t : TagRecord) : Nat :=
  if t.twitterCard ≠ "" then 10 else 0

/-- Amount rule 5 adds to the running `score` accumulator. -/
def canonicalDirect (t : TagRecord) : Nat :=
  if t.canonical ≠ "" then 10 else 0

/-- Amount rule 5 adds to `categoryScores.technicalSeo.score`. -/
def canonicalCat (t : TagRecord) : Nat :=
  if t.canonical ≠ "" then 10 else 0

/-- Amount rule 6 adds to the running `score` accumulator (5 when passed). -/
def viewportDirect (t : TagRecord) : Nat :=
  if t.viewport ≠ "" then 5 else 0

/-- Amount rule 6 adds to `categoryScores.technicalSeo.score` (10 when passed). -/
def viewportCat (t : TagRecord) : Nat :=
  if t.viewport ≠ "" then 10 else 0

/-- Amount rule 7 adds to the running `score` accumulator. -/
def languageDirect (t : TagRecord) : Nat :=
  if t.language ≠ "" then 5 else 0

/-- Amount rule 7 adds to `categoryScores.contentQuality.score`. -/
def languageCat (t : TagRecord) : Nat :=
  if t.language ≠ "" then 5 else 0

/-- Amount rule 8 adds to the running `score` accumulator. -/
def structuredDataDirect (t : TagRecord) : Nat :=
  if 0 < t.structuredData.length then 10 else 0

/-- Amount rule 8 adds to `categoryScores.technicalSeo.score`. -/
def structuredDataCat (t : TagRecord) : Nat :=
  if 0 < t.structuredData.length then 10 else 0

/-- Direct score contribution of a finding, read off the source's `score +=`
statements: keyed on the finding's rule name and kind (the description is
never inspected). -/
def findingDirectScore (f : Finding) : Nat :=
  if f.kind = .passed then
    if f.title = "Title Tag Length" then 15
    else if f.title = "Meta Description Length" then 15
    else if f.title = "Open Graph Tags" then 10
    else if f.title = "Twitter Card" then 5
    else if f.title = "Canonical URL" then 10
    else if f.title = "Mobile Viewport" then 5
    else if f.title = "Language Declaration" then 5
    else if f.title = "Structured Data" then 10
    else 0
  else if f.kind = .warning then
    if f.title = "Title Tag Length" then 8
    else if f.title = "Meta Description Length" then 8
    else 0
  else 0

/-- The titles rule k (1-based) may give its finding. -/
def ruleTitles : Nat → List String
  | 1 => ["Title Tag Length", "Missing Title Tag"]
  | 2 => ["Meta Description Length", "Missing Meta Description"]
  | 3 => ["Open Graph Tags"]
  | 4 => ["Twitter Card"]
  | 5 => ["Canonical URL"]
  | 6 => ["Mobile Viewport", "Missing Viewport Tag"]
  | 7 => ["Language Declaration"]
  | 8 => ["Structured Data"]
  | _ => []

/-- TagRecord of the all-passing scenario: 45-character title, 140-character
description, every checked field non-empty, one structured-data block. -/
def richTags : TagRecord :=
  { emptyTags with
    title := "AAAAAAAAAAAAAAAAAAAAAAAAAAAAAAAAAAAAAAAAAAAAA",
    description := "BBBBBBBBBBBBBBBBBBBBBBBBBBBBBBBBBBBBBBBBBBBBBBBBBBBBBBBBBBBBBBBBBBBBBBBBBBBBBBBBBBBBBBBBBBBBBBBBBBBBBBBBBBBBBBBBBBBBBBBBBBBBBBBBBBBBBBBBBBBB",
    ogTitle := "x",
    ogDescription := "y",
    canonical := "https://e.com",
    viewport := "width=device-width",
    language := "en",
    twitterCard := "summary",
    structuredData := [Json.obj []] }

lemma length_pos_of_ne_empty (s : String) (h : s ≠ "") : 0 < s.length := by
  rcases s with ⟨data⟩
  cases data with
  | nil => exact absurd rfl h
  | cons c cs => simp [String.length]

@[simp] lemma titleStep_analysis (t : TagRecord) (s : AnalysisState) :
    (titleStep t s).analysis = s.analysis ++ [titleItem t] := by
  unfold titleStep titleItem
  by_cases h1 : t.title = ""
  · simp [h1]
  · have hpos : 0 < t.title.length := length_pos_of_ne_empty t.title h1
    by_cases h2 : 30 ≤ t.title.length ∧ t.title.length ≤ 60
    · simp [h1, h2]
    · simp [h1, h2, hpos]

@[simp] lemma titleStep_score (t : TagRecord) (s : AnalysisState) :
    (titleStep t s).score = s.score + titleDirect t := by
  unfold titleStep titleDirect
  by_cases h1 : t.title = ""
  · simp [h1]
  · by_cases h2 : 30 ≤ t.title.length ∧ t.title.length ≤ 60
    · simp [h1, h2]
    · by_cases h3 : 0 < t.title.length
      · simp [h1, h2, h3]
      · simp [h1, h2, h3]

lemma titleStep_counts (t : TagRecord) (s : AnalysisState) :
    (titleStep t s).passed + (titleStep t s).warnings + (titleStep t s).errors
      = s.passed + s.warnings + s.errors + 1 := by
  unfold titleStep
  by_cases h1 : t.title = ""
  · simp [h1]; omega
  · have hpos : 0 < t.title.length := length_pos_of_ne_empty t.title h1
    by_cases h2 : 30 ≤ t.title.length ∧ t.title.length ≤ 60
    · simp [h1, h2]; omega
    · simp [h1, h2, hpos]; omega

@[simp] lemma titleStep_basicSeo_score (t : TagRecord) (s : AnalysisState) :
    (titleStep t s).categoryScores.basicSeo.score
      = s.categoryScores.basicSeo.score + titleCat t := by
  unfold titleStep titleCat
  by_cases h1 : t.title = ""
  · simp [h1]
  · by_cases h2 : 30 ≤ t.title.length ∧ t.title.length ≤ 60
    · simp [h1, h2]
    · by_cases h3 : 0 < t.title.length
      · simp [h1, h2, h3]
      · simp [h1, h2, h3]

@[simp] lemma titleStep_basicSeo_max (t : TagRecord) (s : AnalysisState) :
    (titleStep t s).categoryScores.basicSeo.maxScore
      = s.categoryScores.basicSeo.maxScore := by
  unfold titleStep
  by_cases h1 : t.title = ""
  · simp [h1]
  · by_cases h2 : 30 ≤ t.title.length ∧ t.title.length ≤ 60
    · simp [h1, h2]
    · by_cases h3 : 0 < t.title.length
      · simp [h1, h2, h3]
      · simp [h1, h2, h3]

@[simp] lemma titleStep_socialMedia (t : TagRecord) (s : AnalysisState) :
    (titleStep t s).categoryScores.socialMedia = s.categoryScores.socialMedia := by
  unfold titleStep
  by_cases h1 : t.title = ""
  · simp [h1]
  · by_cases h2 : 30 ≤ t.title.length ∧ t.title.length ≤ 60
    · simp [h1, h2]
    · by_cases h3 : 0 < t.title.length
      · simp [h1, h2, h3]
      · simp [h1, h2, h3]

@[simp] lemma titleStep_technicalSeo (t : TagRecord) (s : AnalysisState) :
    (titleStep t s).categoryScores.technicalSeo = s.categoryScores.technicalSeo := by
  unfold titleStep
  by_cases h1 : t.title = ""
  · simp [h1]
  · by_cases h2 : 30 ≤ t.title.length ∧ t.title.length ≤ 60
    · simp [h1, h2]
    · by_cases h3 : 0 < t.title.length
      · simp [h1, h2, h3]
      · simp [h1, h2, h3]

@[simp] lemma titleStep_contentQuality (t : TagRecord) (s : AnalysisState) :
    (titleStep t s).categoryScores.contentQuality = s.categoryScores.contentQuality := by
  unfold titleStep
  by_cases h1 : t.title = ""
  · simp [h1]
  · by_cases h2 : 30 ≤ t.title.length ∧ t.title.length ≤ 60
    · simp [h1, h2]
    · by_cases h3 : 0 < t.title.length
      · simp [h1, h2, h3]
      · simp [h1, h2, h3]

lemma fds_titleItem (t : TagRecord) :
    findingDirectScore (titleItem t) = titleDirect t := by
  unfold titleItem titleDirect
  by_cases h1 : t.title = ""
  · simp [h1, findingDirectScore]
  · have hpos : 0 < t.title.length := length_pos_of_ne_empty t.title h1
    by_cases h2 : 30 ≤ t.title.length ∧ t.title.length ≤ 60
    · simp [h1, h2, findingDirectScore]
    · simp [h1, h2, hpos, findingDirectScore]

@[simp] lemma descriptionStep_analysis (t : TagRecord) (s : AnalysisState) :
    (descriptionStep t s).analysis = s.analysis ++ [descriptionItem t] := by
  unfold descriptionStep descriptionItem
  by_cases h1 : t.description = ""
  · simp [h1]
  · have hpos : 0 < t.description.length := length_pos_of_ne_empty t.description h1
    by_cases h2 : 120 ≤ t.description.length ∧ t.description.length ≤ 160
    · simp [h1, h2]
    · simp [h1, h2, hpos]

@[simp] lemma descriptionStep_score (t : TagRecord) (s : AnalysisState) :
    (descriptionStep t s).score = s.score + descriptionDirect t := by
  unfold descriptionStep descriptionDirect
  by_cases h1 : t.description = ""
  · simp [h1]
  · by_cases h2 : 120 ≤ t.description.length ∧ t.description.length ≤ 160
    · simp [h1, h2]
    · by_cases h3 : 0 < t.description.length
      · simp [h1, h2, h3]
      · simp [h1, h2, h3]

lemma descriptionStep_counts (t : TagRecord) (s : AnalysisState) :
    (descriptionStep t s).passed + (descriptionStep t s).warnings + (descriptionStep t s).errors
      = s.passed + s.warnings + s.errors + 1 := by
  unfold descriptionStep
  by_cases h1 : t.description = ""
  · simp [h1]; omega
  · have hpos : 0 < t.description.length := length_pos_of_ne_empty t.description h1
    by_cases h2 : 120 ≤ t.description.length ∧ t.description.length ≤ 160
    · simp [h1, h2]; omega
    · simp [h1, h2, hpos]; omega

@[simp] lemma descriptionStep_basicSeo_score (t : TagRecord) (s : AnalysisState) :
    (descriptionStep t s).categoryScores.basicSeo.score
      = s.categoryScores.basicSeo.score + descriptionCat t := by
  unfold descriptionStep descriptionCat
  by_cases h1 : t.description = ""
  · simp [h1]
  · by_cases h2 : 120 ≤ t.description.length ∧ t.description.length ≤ 160
    · simp [h1, h2]
    · by_cases h3 : 0 < t.description.length
      · simp [h1, h2, h3]
      · simp [h1, h2, h3]

@[simp] lemma descriptionStep_basicSeo_max (t : TagRecord) (s : AnalysisState) :
    (descriptionStep t s).categoryScores.basicSeo.maxScore
      = s.categoryScores.basicSeo.maxScore := by
  unfold descriptionStep
  by_cases h1 : t.description = ""
  · simp [h1]
  · by_cases h2 : 120 ≤ t.description.length ∧ t.description.length ≤ 160
    · simp [h1, h2]
    · by_cases h3 : 0 < t.description.length
      · simp [h1, h2, h3]
      · simp [h1, h2, h3]

@[simp] lemma descriptionStep_socialMedia (t : TagRecord) (s : AnalysisState) :
    (descriptionStep t s).categoryScores.socialMedia = s.categoryScores.socialMedia := by
  unfold descriptionStep
  by_cases h1 : t.description = ""
  · simp [h1]
  · by_cases h2 : 120 ≤ t.description.length ∧ t.description.length ≤ 160
    · simp [h1, h2]
    · by_cases h3 : 0 < t.description.length
      · simp [h1, h2, h3]
      · simp [h1, h2, h3]

@[simp] lemma descriptionStep_technicalSeo (t : TagRecord) (s : AnalysisState) :
    (descriptionStep t s).categoryScores.technicalSeo = s.categoryScores.technicalSeo := by
  unfold descriptionStep
  by_cases h1 : t.description = ""
  · simp [h1]
  · by_cases h2 : 120 ≤ t.description.length ∧ t.description.length ≤ 160
    · simp [h1, h2]
    · by_cases h3 : 0 < t.description.length
      · simp [h1, h2, h3]
      · simp [h1, h2, h3]

@[simp] lemma descriptionStep_contentQuality (t : TagRecord) (s : AnalysisState) :
    (descriptionStep t s).categoryScores.contentQuality = s.categoryScores.contentQuality := by
  unfold descriptionStep
  by_cases h1 : t.description = ""
  · simp [h1]
  · by_cases h2 : 120 ≤ t.description.length ∧ t.description.length ≤ 160
    · simp [h1, h2]
    · by_cases h3 : 0 < t.description.length
      · simp [h1, h2, h3]
      · simp [h1, h2, h3]

lemma fds_descriptionItem (t : TagRecord) :
    findingDirectScore (descriptionItem t) = descriptionDirect t := by
  unfold descriptionItem descriptionDirect
  by_cases h1 : t.description = ""
  · simp [h1, findingDirectScore]
  · have hpos : 0 < t.description.length := length_pos_of_ne_empty t.description h1
    by_cases h2 : 120 ≤ t.description.length ∧ t.description.length ≤ 160
    · simp [h1, h2, findingDirectScore]
    · simp [h1, h2, hpos, findingDirectScore]

@[simp] lemma openGraphStep_analysis (t : TagRecord) (s : AnalysisState) :
    (openGraphStep t s).analysis = s.analysis ++ [openGraphItem t] := by
  unfold openGraphStep openGraphItem
  by_cases h : t.ogTitle ≠ "" ∧ t.ogDescription ≠ "" <;> simp [h]

@[simp] lemma openGraphStep_score (t : TagRecord) (s : AnalysisState) :
    (openGraphStep t s).score = s.score + openGraphDirect t := by
  unfold openGraphStep openGraphDirect
  by_cases h : t.ogTitle ≠ "" ∧ t.ogDescription ≠ "" <;> simp [h]

lemma openGraphStep_counts (t : TagRecord) (s : AnalysisState) :
    (openGraphStep t s).passed + (openGraphStep t s).warnings + (openGraphStep t s).errors
      = s.passed + s.warnings + s.errors + 1 := by
  unfold openGraphStep
  by_cases h : t.ogTitle ≠ "" ∧ t.ogDescription ≠ "" <;> simp [h] <;> omega

@[simp] lemma openGraphStep_socialMedia_score (t : TagRecord) (s : AnalysisState) :
    (openGraphStep t s).categoryScores.socialMedia.score
      = s.categoryScores.socialMedia.score + openGraphCat t := by
  unfold openGraphStep openGraphCat
  by_cases h : t.ogTitle ≠ "" ∧ t.ogDescription ≠ "" <;> simp [h]

@[simp] lemma openGraphStep_socialMedia_max (t : TagRecord) (s : AnalysisState) :
    (openGraphStep t s).categoryScores.socialMedia.maxScore
      = s.categoryScores.socialMedia.maxScore := by
  unfold openGraphStep
  by_cases h : t.ogTitle ≠ "" ∧ t.ogDescription ≠ "" <;> simp [h]

@[simp] lemma openGraphStep_basicSeo (t : TagRecord) (s : AnalysisState) :
    (openGraphStep t s).categoryScores.basicSeo = s.categoryScores.basicSeo := by
  unfold openGraphStep
  by_cases h : t.ogTitle ≠ "" ∧ t.ogDescription ≠ "" <;> simp [h]

@[simp] lemma openGraphStep_technicalSeo (t : TagRecord) (s : AnalysisState) :
    (openGraphStep t s).categoryScores.technicalSeo = s.categoryScores.technicalSeo := by
  unfold openGraphStep
  by_cases h : t.ogTitle ≠ "" ∧ t.ogDescription ≠ "" <;> simp [h]

@[simp] lemma openGraphStep_contentQuality (t : TagRecord) (s : AnalysisState) :
    (openGraphStep t s).categoryScores.contentQuality = s.categoryScores.contentQuality := by
  unfold openGraphStep
  by_cases h : t.ogTitle ≠ "" ∧ t.ogDescription ≠ "" <;> simp [h]

lemma fds_openGraphItem (t : TagRecord) :
    findingDirectScore (openGraphItem t) = openGraphDirect t := by
  unfold openGraphItem openGraphDirect
  by_cases h : t.ogTitle ≠ "" ∧ t.ogDescription ≠ "" <;> simp [h, findingDirectScore]

@[simp] lemma twitterCardStep_analysis (t : TagRecord) (s : AnalysisState) :
    (twitterCardStep t s).analysis = s.analysis ++ [twitterCardItem t] := by
  unfold twitterCardStep twitterCardItem
  by_cases h : t.twitterCard = "" <;> simp [h]

@[simp] lemma twitterCardStep_score (t : TagRecord) (s : AnalysisState) :
    (twitterCardStep t s).score = s.score + twitterCardDirect t := by
  unfold twitterCardStep twitterCardDirect
  by_cases h : t.twitterCard = "" <;> simp [h]

lemma twitterCardStep_counts (t : TagRecord) (s : AnalysisState) :
    (twitterCardStep t s).passed + (twitterCardStep t s).warnings + (twitterCardStep t s).errors
      = s.passed + s.warnings + s.errors + 1 := by
  unfold twitterCardStep
  by_cases h : t.twitterCard = "" <;> simp [h] <;> omega

@[simp] lemma twitterCardStep_socialMedia_score (t : TagRecord) (s : AnalysisState) :
    (twitterCardStep t s).categoryScores.socialMedia.score
      = s.categoryScores.socialMedia.score + twitterCardCat t := by
  unfold twitterCardStep twitterCardCat
  by_cases h : t.twitterCard = "" <;> simp [h]

@[simp] lemma twitterCardStep_socialMedia_max (t : TagRecord) (s : AnalysisState) :
    (twitterCardStep t s).categoryScores.socialMedia.maxScore
      = s.categoryScores.socialMedia.maxScore := by
  unfold twitterCardStep
  by_cases h : t.twitterCard = "" <;> simp [h]

@[simp] lemma twitterCardStep_basicSeo (t : TagRecord) (s : AnalysisState) :
    (twitterCardStep t s).categoryScores.basicSeo = s.categoryScores.basicSeo := by
  unfold twitterCardStep
  by_cases h : t.twitterCard = "" <;> simp [h]

@[simp] lemma twitterCardStep_technicalSeo (t : TagRecord) (s : AnalysisState) :
    (twitterCardStep t s).categoryScores.technicalSeo = s.categoryScores.technicalSeo := by
  unfold twitterCardStep
  by_cases h : t.twitterCard = "" <;> simp [h]

@[simp] lemma twitterCardStep_contentQuality (t : TagRecord) (s : AnalysisState) :
    (twitterCardStep t s).categoryScores.contentQuality = s.categoryScores.contentQuality := by
  unfold twitterCardStep
  by_cases h : t.twitterCard = "" <;> simp [h]

lemma fds_twitterCardItem (t : TagRecord) :
    findingDirectScore (twitterCardItem t) = twitterCardDirect t := by
  unfold twitterCardItem twitterCardDirect
  by_cases h : t.twitterCard = "" <;> simp [h, findingDirectScore]

@[simp] lemma canonicalStep_analysis (t : TagRecord) (s : AnalysisState) :
    (canonicalStep t s).analysis = s.analysis ++ [canonicalItem t] := by
  unfold canonicalStep canonicalItem
  by_cases h : t.canonical = "" <;> simp [h]

@[simp] lemma canonicalStep_score (t : TagRecord) (s : AnalysisState) :
    (canonicalStep t s).score = s.score + canonicalDirect t := by
  unfold canonicalStep canonicalDirect
  by_cases h : t.canonical = "" <;> simp [h]

lemma canonicalStep_counts (t : TagRecord) (s : AnalysisState) :
    (canonicalStep t s).passed + (canonicalStep t s).warnings + (canonicalStep t s).errors
      = s.passed + s.warnings + s.errors + 1 := by
  unfold canonicalStep
  by_cases h : t.canonical = "" <;> simp [h] <;> omega

@[simp] lemma canonicalStep_technicalSeo_score (t : TagRecord) (s : AnalysisState) :
    (canonicalStep t s).categoryScores.technicalSeo.score
      = s.categoryScores.technicalSeo.score + canonicalCat t := by
  unfold canonicalStep canonicalCat
  by_cases h : t.canonical = "" <;> simp [h]

@[simp] lemma canonicalStep_technicalSeo_max (t : TagRecord) (s : AnalysisState) :
    (canonicalStep t s).categoryScores.technicalSeo.maxScore
      = s.categoryScores.technicalSeo.maxScore := by
  unfold canonicalStep
  by_cases h : t.canonical = "" <;> simp [h]

@[simp] lemma canonicalStep_basicSeo (t : TagRecord) (s : AnalysisState) :
    (canonicalStep t s).categoryScores.basicSeo = s.categoryScores.basicSeo := by
  unfold canonicalStep
  by_cases h : t.canonical = "" <;> simp [h]

@[simp] lemma canonicalStep_socialMedia (t : TagRecord) (s : AnalysisState) :
    (canonicalStep t s).categoryScores.socialMedia = s.categoryScores.socialMedia := by
  unfold canonicalStep
  by_cases h : t.canonical = "" <;> simp [h]

@[simp] lemma canonicalStep_contentQuality (t : TagRecord) (s : AnalysisState) :
    (canonicalStep t s).categoryScores.contentQuality = s.categoryScores.contentQuality := by
  unfold canonicalStep
  by_cases h : t.canonical = "" <;> simp [h]

lemma fds_canonicalItem (t : TagRecord) :
    findingDirectScore (canonicalItem t) = canonicalDirect t := by
  unfold canonicalItem canonicalDirect
  by_cases h : t.canonical = "" <;> simp [h, findingDirectScore]

@[simp] lemma viewportStep_analysis (t : TagRecord) (s : AnalysisState) :
    (viewportStep t s).analysis = s.analysis ++ [viewportItem t] := by
  unfold viewportStep viewportItem
  by_cases h : t.viewport = "" <;> simp [h]

@[simp] lemma viewportStep_score (t : TagRecord) (s : AnalysisState) :
    (viewportStep t s).score = s.score + viewportDirect t := by
  unfold viewportStep viewportDirect
  by_cases h : t.viewport = "" <;> simp [h]

lemma viewportStep_counts (t : TagRecord) (s : AnalysisState) :
    (viewportStep t s).passed + (viewportStep t s).warnings + (viewportStep t s).errors
      = s.passed + s.warnings + s.errors + 1 := by
  unfold viewportStep
  by_cases h : t.viewport = "" <;> simp [h] <;> omega

@[simp] lemma viewportStep_technicalSeo_score (t : TagRecord) (s : AnalysisState) :
    (viewportStep t s).categoryScores.technicalSeo.score
      = s.categoryScores.technicalSeo.score + viewportCat t := by
  unfold viewportStep viewportCat
  by_cases h : t.viewport = "" <;> simp [h]

@[simp] lemma viewportStep_technicalSeo_max (t : TagRecord) (s : AnalysisState) :
    (viewportStep t s).categoryScores.technicalSeo.maxScore
      = s.categoryScores.technicalSeo.maxScore := by
  unfold viewportStep
  by_cases h : t.viewport = "" <;> simp [h]

@[simp] lemma viewportStep_basicSeo (t : TagRecord) (s : AnalysisState) :
    (viewportStep t s).categoryScores.basicSeo = s.categoryScores.basicSeo := by
  unfold viewportStep
  by_cases h : t.viewport = "" <;> simp [h]

@[simp] lemma viewportStep_socialMedia (t : TagRecord) (s : AnalysisState) :
    (viewportStep t s).categoryScores.socialMedia = s.categoryScores.socialMedia := by
  unfold viewportStep
  by_cases h : t.viewport = "" <;> simp [h]

@[simp] lemma viewportStep_contentQuality (t : TagRecord) (s : AnalysisState) :
    (viewportStep t s).categoryScores.contentQuality = s.categoryScores.contentQuality := by
  unfold viewportStep
  by_cases h : t.viewport = "" <;> simp [h]

lemma fds_viewportItem (t : TagRecord) :
    findingDirectScore (viewportItem t) = viewportDirect t := by
  unfold viewportItem viewportDirect
  by_cases h : t.viewport = "" <;> simp [h, findingDirectScore]

@[simp] lemma languageStep_analysis (t : TagRecord) (s : AnalysisState) :
    (languageStep t s).analysis = s.analysis ++ [languageItem t] := by
  unfold languageStep languageItem
  by_cases h : t.language = "" <;> simp [h]

@[simp] lemma languageStep_score (t : TagRecord) (s : AnalysisState) :
    (languageStep t s).score = s.score + languageDirect t := by
  unfold languageStep languageDirect
  by_cases h : t.language = "" <;> simp [h]

lemma languageStep_counts (t : TagRecord) (s : AnalysisState) :
    (languageStep t s).passed + (languageStep t s).warnings + (languageStep t s).errors
      = s.passed + s.warnings + s.errors + 1 := by
  unfold languageStep
  by_cases h : t.language = "" <;> simp [h] <;> omega

@[simp] lemma languageStep_contentQuality_score (t : TagRecord) (s : AnalysisState) :
    (languageStep t s).categoryScores.contentQuality.score
      = s.categoryScores.contentQuality.score + languageCat t := by
  unfold languageStep languageCat
  by_cases h : t.language = "" <;> simp [h]

@[simp] lemma languageStep_contentQuality_max (t : TagRecord) (s : AnalysisState) :
    (languageStep t s).categoryScores.contentQuality.maxScore
      = s.categoryScores.contentQuality.maxScore := by
  unfold languageStep
  by_cases h : t.language = "" <;> simp [h]

@[simp] lemma languageStep_basicSeo (t : TagRecord) (s : AnalysisState) :
    (languageStep t s).categoryScores.basicSeo = s.categoryScores.basicSeo := by
  unfold languageStep
  by_cases h : t.language = "" <;> simp [h]

@[simp] lemma languageStep_socialMedia (t : TagRecord) (s : AnalysisState) :
    (languageStep t s).categoryScores.socialMedia = s.categoryScores.socialMedia := by
  unfold languageStep
  by_cases h : t.language = "" <;> simp [h]

@[simp] lemma languageStep_technicalSeo (t : TagRecord) (s : AnalysisState) :
    (languageStep t s).categoryScores.technicalSeo = s.categoryScores.technicalSeo := by
  unfold languageStep
  by_cases h : t.language = "" <;> simp [h]

lemma fds_languageItem (t : TagRecord) :
    findingDirectScore (languageItem t) = languageDirect t := by
  unfold languageItem languageDirect
  by_cases h : t.language = "" <;> simp [h, findingDirectScore]

@[simp] lemma structuredDataStep_analysis (t : TagRecord) (s : AnalysisState) :
    (structuredDataStep t s).analysis = s.analysis ++ [structuredDataItem t] := by
  unfold structuredDataStep structuredDataItem
  by_cases h : 0 < t.structuredData.length <;> simp [h]

@[simp] lemma structuredDataStep_score (t : TagRecord) (s : AnalysisState) :
    (structuredDataStep t s).score = s.score + structuredDataDirect t := by
  unfold structuredDataStep structuredDataDirect
  by_cases h : 0 < t.structuredData.length <;> simp [h]

lemma structuredDataStep_counts (t : TagRecord) (s : AnalysisState) :
    (structuredDataStep t s).passed + (structuredDataStep t s).warnings
        + (structuredDataStep t s).errors
      = s.passed + s.warnings + s.errors + 1 := by
  unfold structuredDataStep
  by_cases h : 0 < t.structuredData.length <;> simp [h] <;> omega

@[simp] lemma structuredDataStep_technicalSeo_score (t : TagRecord) (s : AnalysisState) :
    (structuredDataStep t s).categoryScores.technicalSeo.score
      = s.categoryScores.technicalSeo.score + structuredDataCat t := by
  unfold structuredDataStep structuredDataCat
  by_cases h : 0 < t.structuredData.length <;> simp [h]

@[simp] lemma structuredDataStep_technicalSeo_max (t : TagRecord) (s : AnalysisState) :
    (structuredDataStep t s).categoryScores.technicalSeo.maxScore
      = s.categoryScores.technicalSeo.maxScore := by
  unfold structuredDataStep
  by_cases h : 0 < t.structuredData.length <;> simp [h]

@[simp] lemma structuredDataStep_basicSeo (t : TagRecord) (s : AnalysisState) :
    (structuredDataStep t s).categoryScores.basicSeo = s.categoryScores.basicSeo := by
  unfold structuredDataStep
  by_cases h : 0 < t.structuredData.length <;> simp [h]

@[simp] lemma structuredDataStep_socialMedia (t : TagRecord) (s : AnalysisState) :
    (structuredDataStep t s).categoryScores.socialMedia = s.categoryScores.socialMedia := by
  unfold structuredDataStep
  by_cases h : 0 < t.structuredData.length <;> simp [h]

@[simp] lemma structuredDataStep_contentQuality (t : TagRecord) (s : AnalysisState) :
    (structuredDataStep t s).categoryScores.contentQuality
      = s.categoryScores.contentQuality := by
  unfold structuredDataStep
  by_cases h : 0 < t.structuredData.length <;> simp [h]

lemma fds_structuredDataItem (t : TagRecord) :
    findingDirectScore (structuredDataItem t) = structuredDataDirect t := by
  unfold structuredDataItem structuredDataDirect
  by_cases h : 0 < t.structuredData.length <;> simp [h, findingDirectScore]

lemma analyzeSEO_items (t : TagRecord) (url : String) :
    (analyzeSEO t url).items
      = [titleItem t, descriptionItem t, openGraphItem t, twitterCardItem t,
         canonicalItem t, viewportItem t, languageItem t, structuredDataItem t] := by
  simp [analyzeSEO, initState]

lemma analyzeSEO_score_direct (t : TagRecord) (url : String) :
    (analyzeSEO t url).score
      = min 100 (titleDirect t + descriptionDirect t + openGraphDirect t
          + twitterCardDirect t + canonicalDirect t + viewportDirect t
          + languageDirect t + structuredDataDirect t) := by
  simp [analyzeSEO, initState]

lemma analyzeSEO_counts (t : TagRecord) (url : String) :
    (analyzeSEO t url).passed + (analyzeSEO t url).warnings + (analyzeSEO t url).errors
      = 8 := by
  have h1 := titleStep_counts t initState
  have h2 := descriptionStep_counts t (titleStep t initState)
  have h3 := openGraphStep_counts t (descriptionStep t (titleStep t initState))
  have h4 := twitterCardStep_counts t
    (openGraphStep t (descriptionStep t (titleStep t initState)))
  have h5 := canonicalStep_counts t
    (twitterCardStep t (openGraphStep t (descriptionStep t (titleStep t initState))))
  have h6 := viewportStep_counts t
    (canonicalStep t (twitterCardStep t (openGraphStep t
      (descriptionStep t (titleStep t initState)))))
  have h7 := languageStep_counts t
    (viewportStep t (canonicalStep t (twitterCardStep t (openGraphStep t
      (descriptionStep t (titleStep t initState))))))
  have h8 := structuredDataStep_counts t
    (languageStep t (viewportStep t (canonicalStep t (twitterCardStep t
      (openGraphStep t (descriptionStep t (titleStep t initState)))))))
  have h0p : initState.passed = 0 := rfl
  have h0w : initState.warnings = 0 := rfl
  have h0e : initState.errors = 0 := rfl
  show (structuredDataStep t (languageStep t (viewportStep t (canonicalStep t
      (twitterCardStep t (openGraphStep t (descriptionStep t
        (titleStep t initState)))))))).passed
    + (structuredDataStep t (languageStep t (viewportStep t (canonicalStep t
      (twitterCardStep t (openGraphStep t (descriptionStep t
        (titleStep t initState)))))))).warnings
    + (structuredDataStep t (languageStep t (viewportStep t (canonicalStep t
      (twitterCardStep t (openGraphStep t (descriptionStep t
        (titleStep t initState)))))))).errors = 8
  omega

lemma analyzeSEO_basicSeo_score (t : TagRecord) (url : String) :
    (analyzeSEO t url).categoryScores.basicSeo.score = titleCat t + descriptionCat t := by
  simp [analyzeSEO, initState, initCategoryScores]

lemma analyzeSEO_basicSeo_max (t : TagRecord) (url : String) :
    (analyzeSEO t url).categoryScores.basicSeo.maxScore = 30 := by
  simp [analyzeSEO, initState, initCategoryScores]

lemma analyzeSEO_socialMedia_score (t : TagRecord) (url : String) :
    (analyzeSEO t url).categoryScores.socialMedia.score
      = openGraphCat t + twitterCardCat t := by
  simp [analyzeSEO, initState, initCategoryScores]

lemma analyzeSEO_socialMedia_max (t : TagRecord) (url : String) :
    (analyzeSEO t url).categoryScores.socialMedia.maxScore = 25 := by
  simp [analyzeSEO, initState, initCategoryScores]

lemma analyzeSEO_technicalSeo_score (t : TagRecord) (url : String) :
    (analyzeSEO t url).categoryScores.technicalSeo.score
      = canonicalCat t + viewportCat t + structuredDataCat t := by
  simp [analyzeSEO, initState, initCategoryScores]

lemma analyzeSEO_technicalSeo_max (t : TagRecord) (url : String) :
    (analyzeSEO t url).categoryScores.technicalSeo.maxScore = 30 := by
  simp [analyzeSEO, initState, initCategoryScores]

lemma analyzeSEO_contentQuality_score (t : TagRecord) (url : String) :
    (analyzeSEO t url).categoryScores.contentQuality.score = languageCat t := by
  simp [analyzeSEO, initState, initCategoryScores]

lemma analyzeSEO_contentQuality_max (t : TagRecord) (url : String) :
    (analyzeSEO t url).categoryScores.contentQuality.maxScore = 15 := by
  simp [analyzeSEO, initState, initCategoryScores]

lemma titleCat_le (t : TagRecord) : titleCat t ≤ 15 := by
  unfold titleCat
  by_cases h1 : t.title = "" <;>
    by_cases h2 : 30 ≤ t.title.length ∧ t.title.length ≤ 60 <;>
      by_cases h3 : 0 < t.title.length <;> simp [h1, h2, h3]

lemma descriptionCat_le (t : TagRecord) : descriptionCat t ≤ 15 := by
  unfold descriptionCat
  by_cases h1 : t.description = "" <;>
    by_cases h2 : 120 ≤ t.description.length ∧ t.description.length ≤ 160 <;>
      by_cases h3 : 0 < t.description.length <;> simp [h1, h2, h3]

lemma openGraphCat_le (t : TagRecord) : openGraphCat t ≤ 15 := by
  unfold openGraphCat
  by_cases h : t.ogTitle ≠ "" ∧ t.ogDescription ≠ "" <;> simp [h]

lemma twitterCardCat_le (t : TagRecord) : twitterCardCat t ≤ 10 := by
  unfold twitterCardCat
  by_cases h : t.twitterCard = "" <;> simp [h]

lemma canonicalCat_le (t : TagRecord) : canonicalCat t ≤ 10 := by
  unfold canonicalCat
  by_cases h : t.canonical = "" <;> simp [h]

lemma viewportCat_le (t : TagRecord) : viewportCat t ≤ 10 := by
  unfold viewportCat
  by_cases h : t.viewport = "" <;> simp [h]

lemma languageCat_le (t : TagRecord) : languageCat t ≤ 5 := by
  unfold languageCat
  by_cases h : t.language = "" <;> simp [h]

lemma structuredDataCat_le (t : TagRecord) : structuredDataCat t ≤ 10 := by
  unfold structuredDataCat
  by_cases h : 0 < t.structuredData.length <;> simp [h]

/-- C1 counterexample: on the all-empty TagRecord the report does not have
errorCount 2 and warningCount 6 as claimed — the description rule also
errors, giving 3 errors and 5 warnings. -/
theorem emptyTags_spec_counts_false :
    ¬((analyzeSEO emptyTags "").score = 0 ∧ (analyzeSEO emptyTags "").errors = 2 ∧
      (analyzeSEO emptyTags "").warnings = 6 ∧ (analyzeSEO emptyTags "").passed = 0) := by
  decide

/-- C1 amended: on the all-empty TagRecord, overallScore is 0, errorCount is 3
(title, description, viewport), warningCount is 5 and passedCount is 0. -/
theorem emptyTags_report_values :
    (analyzeSEO emptyTags "").score = 0 ∧ (analyzeSEO emptyTags "").errors = 3 ∧
      (analyzeSEO emptyTags "").warnings = 5 ∧ (analyzeSEO emptyTags "").passed = 0 := by
  decide

/-- C2 counterexample: for the record that is empty except viewport = "w",
errorCount is not 1 — the title and description rules both error. -/
theorem viewportOnly_spec_counts_false :
    ¬((analyzeSEO viewportOnlyTags "").errors = 1 ∧
      (analyzeSEO viewportOnlyTags "").score = 5) := by
  decide

/-- C2 amended: for the record that is empty except viewport = "w",
errorCount is 2 (title and description) and overallScore is 5. -/
theorem viewportOnly_report_values :
    (analyzeSEO viewportOnlyTags "").errors = 2 ∧
      (analyzeSEO viewportOnlyTags "").score = 5 ∧
      (analyzeSEO viewportOnlyTags "").warnings = 5 ∧
      (analyzeSEO viewportOnlyTags "").passed = 1 := by
  decide

/-- C3 counterexample: the viewport rule is a third rule whose direct score
differs from its category points — with viewport = "w" it adds 5 to the
overall score but 10 to technicalSeo's category points. -/
theorem viewport_direct_ne_category :
    viewportDirect viewportOnlyTags ≠ viewportCat viewportOnlyTags ∧
    viewportDirect viewportOnlyTags = 5 ∧ viewportCat viewportOnlyTags = 10 ∧
    (viewportStep viewportOnlyTags initState).score = 5 ∧
    (viewportStep viewportOnlyTags initState).categoryScores.technicalSeo.score = 10 := by
  decide

/-- C3 amended: the direct score differs from the category points for exactly
three rules — Open Graph (10 direct vs 15 category), Twitter Card (5 vs 10)
and Viewport (5 vs 10) — and for every other rule the two values agree in
every finding outcome; each per-rule value is exactly what the corresponding
step adds to the running score and its category tally. -/
theorem direct_vs_category_three_rules : ∀ t : TagRecord,
    titleDirect t = titleCat t ∧ descriptionDirect t = descriptionCat t ∧
    canonicalDirect t = canonicalCat t ∧ languageDirect t = languageCat t ∧
    structuredDataDirect t = structuredDataCat t ∧
    ((openGraphDirect t = 10 ∧ openGraphCat t = 15) ∨
      (openGraphDirect t = 0 ∧ openGraphCat t = 0)) ∧
    ((twitterCardDirect t = 5 ∧ twitterCardCat t = 10) ∨
      (twitterCardDirect t = 0 ∧ twitterCardCat t = 0)) ∧
    ((viewportDirect t = 5 ∧ viewportCat t = 10) ∨
      (viewportDirect t = 0 ∧ viewportCat t = 0)) ∧
    (∀ s : AnalysisState,
      (openGraphStep t s).score = s.score + openGraphDirect t ∧
      (openGraphStep t s).categoryScores.socialMedia.score
        = s.categoryScores.socialMedia.score + openGraphCat t ∧
      (twitterCardStep t s).score = s.score + twitterCardDirect t ∧
      (twitterCardStep t s).categoryScores.socialMedia.score
        = s.categoryScores.socialMedia.score + twitterCardCat t ∧
      (viewportStep t s).score = s.score + viewportDirect t ∧
      (viewportStep t s).categoryScores.technicalSeo.score
        = s.categoryScores.technicalSeo.score + viewportCat t) := by
  intro t
  refine ⟨rfl, rfl, rfl, rfl, rfl, ?_, ?_, ?_, ?_⟩
  · unfold openGraphDirect openGraphCat
    by_cases h : t.ogTitle ≠ "" ∧ t.ogDescription ≠ ""
    · left; simp [h]
    · right; simp [h]
  · unfold twitterCardDirect twitterCardCat
    by_cases h : t.twitterCard = ""
    · right; simp [h]
    · left; simp [h]
  · unfold viewportDirect viewportCat
    by_cases h : t.viewport = ""
    · right; simp [h]
    · left; simp [h]
  · intro s
    exact ⟨openGraphStep_score t s, openGraphStep_socialMedia_score t s,
      twitterCardStep_score t s, twitterCardStep_socialMedia_score t s,
      viewportStep_score t s, viewportStep_technicalSeo_score t s⟩

/-- C4: for every TagRecord (and any url), the report's overall score equals
min(100, sum of the findings' direct score contributions), and is ≤ 100. -/
theorem overallScore_eq_min_direct_sum : ∀ (t : TagRecord) (url : String),
    (analyzeSEO t url).score
        = min 100 (((analyzeSEO t url).items.map findingDirectScore).sum) ∧
    (analyzeSEO t url).score ≤ 100 := by
  intro t url
  constructor
  · rw [analyzeSEO_items, analyzeSEO_score_direct]
    simp [fds_titleItem, fds_descriptionItem, fds_openGraphItem, fds_twitterCardItem,
      fds_canonicalItem, fds_viewportItem, fds_languageItem, fds_structuredDataItem]
    omega
  · rw [analyzeSEO_score_direct]
    exact Nat.min_le_left _ _

/-- C5: every report has exactly 8 findings, one per rule, in the fixed order
rule 1 (title) through rule 8 (structured data). -/
theorem findings_eight_ordered : ∀ (t : TagRecord) (url : String),
    (analyzeSEO t url).items
        = [titleItem t, descriptionItem t, openGraphItem t, twitterCardItem t,
           canonicalItem t, viewportItem t, languageItem t, structuredDataItem t] ∧
    (analyzeSEO t url).items.length = 8 ∧
    (titleItem t).title ∈ ruleTitles 1 ∧ (descriptionItem t).title ∈ ruleTitles 2 ∧
    (openGraphItem t).title ∈ ruleTitles 3 ∧ (twitterCardItem t).title ∈ ruleTitles 4 ∧
    (canonicalItem t).title ∈ ruleTitles 5 ∧ (viewportItem t).title ∈ ruleTitles 6 ∧
    (languageItem t).title ∈ ruleTitles 7 ∧ (structuredDataItem t).title ∈ ruleTitles 8 := by
  intro t url
  refine ⟨analyzeSEO_items t url, by rw [analyzeSEO_items]; rfl, ?_, ?_, ?_, ?_, ?_, ?_, ?_, ?_⟩
  · unfold titleItem
    by_cases h1 : t.title = "" <;>
      by_cases h2 : 30 ≤ t.title.length ∧ t.title.length ≤ 60 <;>
        simp [h1, h2, ruleTitles]
  · unfold descriptionItem
    by_cases h1 : t.description = "" <;>
      by_cases h2 : 120 ≤ t.description.length ∧ t.description.length ≤ 160 <;>
        simp [h1, h2, ruleTitles]
  · unfold openGraphItem
    by_cases h : t.ogTitle ≠ "" ∧ t.ogDescription ≠ "" <;> simp [h, ruleTitles]
  · unfold twitterCardItem
    by_cases h : t.twitterCard = "" <;> simp [h, ruleTitles]
  · unfold canonicalItem
    by_cases h : t.canonical = "" <;> simp [h, ruleTitles]
  · unfold viewportItem
    by_cases h : t.viewport = "" <;> simp [h, ruleTitles]
  · unfold languageItem
    by_cases h : t.language = "" <;> simp [h, ruleTitles]
  · unfold structuredDataItem
    by_cases h : 0 < t.structuredData.length <;> simp [h, ruleTitles]

/-- C6: the first finding is the title rule's and the second the description
rule's, and their kinds are exactly as the inclusive length ranges dictate:
passed iff non-empty with length in [30,60] (resp. [120,160]), error iff
empty, warning otherwise. -/
theorem title_description_rule_kinds : ∀ (t : TagRecord) (url : String),
    (analyzeSEO t url).items[0]? = some (titleItem t) ∧
    (analyzeSEO t url).items[1]? = some (descriptionItem t) ∧
    ((titleItem t).kind = .passed ↔
      t.title ≠ "" ∧ 30 ≤ t.title.length ∧ t.title.length ≤ 60) ∧
    ((titleItem t).kind = .warning ↔
      t.title ≠ "" ∧ ¬(30 ≤ t.title.length ∧ t.title.length ≤ 60)) ∧
    ((titleItem t).kind = .error ↔ t.title = "") ∧
    ((descriptionItem t).kind = .passed ↔
      t.description ≠ "" ∧ 120 ≤ t.description.length ∧ t.description.length ≤ 160) ∧
    ((descriptionItem t).kind = .warning ↔
      t.description ≠ "" ∧ ¬(120 ≤ t.description.length ∧ t.description.length ≤ 160)) ∧
    ((descriptionItem t).kind = .error ↔ t.description = "") := by
  intro t url
  refine ⟨by rw [analyzeSEO_items]; rfl, by rw [analyzeSEO_items]; rfl,
    ?_, ?_, ?_, ?_, ?_, ?_⟩ <;>
  · first
    | (unfold titleItem
       by_cases h1 : t.title = "" <;>
         by_cases h2 : 30 ≤ t.title.length ∧ t.title.length ≤ 60 <;>
           simp [h1, h2])
    | (unfold descriptionItem
       by_cases h1 : t.description = "" <;>
         by_cases h2 : 120 ≤ t.description.length ∧ t.description.length ≤ 160 <;>
           simp [h1, h2])

/-- C7: in every report, passedCount + warningCount + errorCount equals the
number of findings. -/
theorem counts_sum_eq_findings_length : ∀ (t : TagRecord) (url : String),
    (analyzeSEO t url).passed + (analyzeSEO t url).warnings + (analyzeSEO t url).errors
      = (analyzeSEO t url).items.length := by
  intro t url
  have hlen : (analyzeSEO t url).items.length = 8 := by rw [analyzeSEO_items]; rfl
  rw [hlen]
  exact analyzeSEO_counts t url

/-- C8: the all-passing record (45-char title, 140-char description, every
checked field non-empty, one structured-data block) yields 8 passed findings,
overallScore 75, passedCount 8, and no warnings or errors. -/
theorem richTags_all_passed :
    ((analyzeSEO richTags "").items.map Finding.kind
        = [.passed, .passed, .passed, .passed, .passed, .passed, .passed, .passed]) ∧
    (analyzeSEO richTags "").score = 75 ∧ (analyzeSEO richTags "").passed = 8 ∧
    (analyzeSEO richTags "").warnings = 0 ∧ (analyzeSEO richTags "").errors = 0 := by
  decide

/-- C9: every category tally satisfies earned score ≤ maxScore, and the four
maxScore constants (30, 25, 30, 15) sum to 100. -/
theorem category_bounds_and_max_sum : ∀ (t : TagRecord) (url : String),
    (analyzeSEO t url).categoryScores.basicSeo.score
        ≤ (analyzeSEO t url).categoryScores.basicSeo.maxScore ∧
    (analyzeSEO t url).categoryScores.socialMedia.score
        ≤ (analyzeSEO t url).categoryScores.socialMedia.maxScore ∧
    (analyzeSEO t url).categoryScores.technicalSeo.score
        ≤ (analyzeSEO t url).categoryScores.technicalSeo.maxScore ∧
    (analyzeSEO t url).categoryScores.contentQuality.score
        ≤ (analyzeSEO t url).categoryScores.contentQuality.maxScore ∧
    (analyzeSEO t url).categoryScores.basicSeo.maxScore
        + (analyzeSEO t url).categoryScores.socialMedia.maxScore
        + (analyzeSEO t url).categoryScores.technicalSeo.maxScore
        + (analyzeSEO t url).categoryScores.contentQuality.maxScore = 100 := by
  intro t url
  have hb := analyzeSEO_basicSeo_score t url
  have hbm := analyzeSEO_basicSeo_max t url
  have hs := analyzeSEO_socialMedia_score t url
  have hsm := analyzeSEO_socialMedia_max t url
  have ht := analyzeSEO_technicalSeo_score t url
  have htm := analyzeSEO_technicalSeo_max t url
  have hc := analyzeSEO_contentQuality_score t url
  have hcm := analyzeSEO_contentQuality_max t url
  have b1 := titleCat_le t
  have b2 := descriptionCat_le t
  have b3 := openGraphCat_le t
  have b4 := twitterCardCat_le t
  have b5 := canonicalCat_le t
  have b6 := viewportCat_le t
  have b7 := languageCat_le t
  have b8 := structuredDataCat_le t
  omega

/-- C10: the engine is deterministic and depends only on the TagRecord — equal
records give reports equal in every field, whatever the url arguments. -/
theorem analyzeSEO_deterministic :
    ∀ (t1 t2 : TagRecord) (u1 u2 : String),
      t1 = t2 → analyzeSEO t1 u1 = analyzeSEO t2 u2 := by
  intro t1 t2 u1 u2 h
  subst h
  rfl

/-- C10 witness: the determinism theorem applied at a concrete record and two
different urls. -/
theorem analyzeSEO_deterministic_witness :
    analyzeSEO emptyTags "https://a.example" = analyzeSEO emptyTags "https://b.example" :=
  analyzeSEO_deterministic emptyTags emptyTags "https://a.example" "https://b.example" rfl
